import Mathlib

/-!
Verification of the dispatch and queueing engine of tolki-app/gorush
(`router/server.go`) against its natural-language specification.

The Go source is shallowly embedded: `handleNotification`,
`markFailedNotification` and `deleteUnregisteredToken` are translated into
pure Lean functions.  Effects that the Go code performs through external
collaborators (the queue's accept/reject decision, the outcome of
`notify.SendNotification`, the HTTP responses seen by the token reclaimer,
the `CLEANER_API_URL` environment variable) are supplied as explicit oracle
parameters.  The `sync.WaitGroup` is modelled as a counter: `Add(1)`
increments it, `Done` decrements it and — exactly as in Go — underflowing
the counter (calling `Done` when the counter is zero) is a panic, which
aborts the surrounding loop.  Task completions in sync mode are serialised
in submission order; the separate `agg*` machine models the unsynchronised
concurrent append `logs = append(logs, resp.Logs...)` as an explicit
read/write interleaving.
-/

namespace Gorush

/-- Modelled from the spec: the platform tags of the `core` package
(absent from the sources; only the constants `core.PlatFormIos`,
`core.PlatFormAndroid`, `core.PlatFormHuawei` are referenced by
`router/server.go`).  The platform is an integer tag. -/
def PlatFormIos : Nat := 1

/-- Modelled from the spec: Android platform tag of the `core` package. -/
def PlatFormAndroid : Nat := 2

/-- Modelled from the spec: Huawei platform tag of the `core` package. -/
def PlatFormHuawei : Nat := 3

/-- Modelled from the spec: the `core.FailedPush` status string used for a
failed delivery outcome (spec: status is success/failed). -/
def FailedPush : String := "failed"

/-- Modelled from the spec: `core.IsLocalQueue` of the `core` package
(absent from the sources).  The spec's QueueEngine tag "identifies whether
the backing queue is local (in-process) or external/distributed"; the
engine is a string tag and the local in-process engine is tagged
`"local"`. -/
def IsLocalQueue (engine : String) : Bool :=
  engine == "local"

/-- Modelled from the spec: `notify.PushNotification` (the `notify`
package is absent from the sources).  Exactly the fields that
`router/server.go` touches: `ID`, `Tokens`, `Platform`, `Message`, `To`
(topic). -/
structure PushNotification where
  ID : String
  Tokens : List String
  Platform : Nat
  Message : String
  To : String
deriving DecidableEq, Repr

/-- Modelled from the spec: `notify.RequestPush`, an ordered sequence of
PushNotification bound from the request body. -/
structure RequestPush where
  Notifications : List PushNotification
deriving DecidableEq, Repr

/-- Modelled from the spec: `logx.LogPushEntry`, one terminal outcome per
(notification, token) pair: status, token (optionally redacted), message,
platform and error detail. -/
structure LogPushEntry where
  ID : String
  Status : String
  Token : String
  Message : String
  Platform : Nat
  Error : String
deriving DecidableEq, Repr

/-- Modelled from the spec: the input record handed to
`logx.GetLogPushEntry` by `markFailedNotification`. -/
structure InputLog where
  ID : String
  Status : String
  Token : String
  Message : String
  Platform : Nat
  Error : String
  HideToken : Bool
  Format : String
deriving DecidableEq, Repr

/-- Modelled from the spec: `logx.GetLogPushEntry` (the `logx` package is
absent from the sources).  It materialises one immutable LogPushEntry from
the input; the token is redacted when `HideToken` is set ("token
(optionally redacted)"). -/
def GetLogPushEntry (input : InputLog) : LogPushEntry :=
  { ID := input.ID
    Status := input.Status
    Token := if input.HideToken then "" else input.Token
    Message := input.Message
    Platform := input.Platform
    Error := input.Error }

/-- Config section `Core` of `config.ConfYaml`: the fields read by the
dispatch code (`Sync`, plus `Mode` and `MaxNotification`, carried to state
frame conditions about the sync-downgrade mutation). -/
structure SectionCore where
  Sync : Bool
  Mode : String
  MaxNotification : Nat
deriving DecidableEq, Repr

/-- Per-platform enable flag sections of `config.ConfYaml`. -/
structure SectionPlatform where
  Enabled : Bool
deriving DecidableEq, Repr

/-- Config section `Queue`: the engine tag. -/
structure SectionQueue where
  Engine : String
deriving DecidableEq, Repr

/-- Config section `Log`: the fields `markFailedNotification` reads. -/
structure SectionLog where
  HideToken : Bool
  Format : String
deriving DecidableEq, Repr

/-- The slice of `config.ConfYaml` that `handleNotification` and
`markFailedNotification` read or write. -/
structure ConfYaml where
  Core : SectionCore
  Ios : SectionPlatform
  Android : SectionPlatform
  Huawei : SectionPlatform
  Queue : SectionQueue
  Log : SectionLog
deriving DecidableEq, Repr

/-- Substring test over strings, embedding Go's `strings.Contains`. -/
def containsSubstr (s pat : String) : Bool :=
  (List.range (s.length + 1)).any (fun i => pat.toList.isPrefixOf (s.toList.drop i))

/-- Embedding of `markFailedNotification` (router/server.go): builds one
Failed LogPushEntry per token of the notification, in token order, with
the given reason as the error detail.  There is no entry for the topic
(`To`): the loop ranges over `notification.Tokens` only. -/
def markFailedNotification (cfg : ConfYaml) (notification : PushNotification)
    (reason : String) : List LogPushEntry :=
  notification.Tokens.map (fun token =>
    GetLogPushEntry
      { ID := notification.ID
        Status := FailedPush
        Token := token
        Message := notification.Message
        Platform := notification.Platform
        Error := reason
        HideToken := cfg.Log.HideToken
        Format := cfg.Log.Format })

/-- Embedding of the `CLEANER_API_URL` resolution in `handleNotification`
(router/server.go lines 310-313): `os.Getenv` yields `""` when the
variable is unset, in which case the fixed default is used. -/
def resolveCleanerApiUrl (env : String) : String :=
  if env == "" then "https://cleaner.tolki.app" else env

/-- Result of `notify.SendNotification`: the backend's per-token log
entries.  Modelled from the spec: the send is an opaque operation
returning "a result with its own LogPushEntry sequence". -/
structure PushResult where
  Logs : List LogPushEntry
deriving DecidableEq, Repr

/-- Oracle outcome of one send: either the send never returns within the
observation window (`hangs`, used for the temporal claims), or it returns
a PushResult together with an optional error. -/
inductive SendOutcome where
  | hangs : SendOutcome
  | done : PushResult → Option String → SendOutcome

/-- Bookkeeping record of what handling one surviving notification did:
barrier units registered (`wg.Add`) and released (`wg.Done`), log entries
contributed to the shared slice, reclamation calls scheduled (token with
resolved service URL), whether the send ran inside a dispatch-owned task,
the error the task closure returned to the queue library, whether a
`QueueTask` submission error was merely logged, and whether the task hung
(send never returned, so its deferred `wg.Done` never ran). -/
structure TaskRecord where
  registered : Nat
  released : Nat
  logsAdded : List LogPushEntry
  reclaims : List (String × String)
  sendRan : Bool
  taskErr : Option String
  submitErrLogged : Bool
  hung : Bool
deriving DecidableEq, Repr

/-- Embedding of the per-notification body of the dispatch loop in
`handleNotification` (router/server.go lines 286-333): `wg.Add(1)` when
sync; in the local+sync branch submit the task closure via `q.QueueTask`
(`accepts = false` models a capacity rejection, in which case the closure
never runs and the error is only logged); inside the closure the deferred
`wg.Done` runs once the send returns, an error whose text contains
"Unregistered" schedules one fire-and-forget reclamation per token and is
not propagated, any other error is returned to the queue library before
the log append, and otherwise the backend's logs are appended.  In the
non-(local&&sync) branch, `q.Queue` either accepts (no in-process
completion) or rejects, in which case `markFailedNotification` entries are
appended and `wg.Done` is called. -/
def handleOne (cfg : ConfYaml) (env : String) (accepts : Bool)
    (outcome : SendOutcome) (n : PushNotification) : TaskRecord :=
  let reg : Nat := if cfg.Core.Sync then 1 else 0
  if IsLocalQueue cfg.Queue.Engine && cfg.Core.Sync then
    if accepts then
      match outcome with
      | SendOutcome.hangs =>
          { registered := reg, released := 0, logsAdded := [], reclaims := []
            sendRan := true, taskErr := none, submitErrLogged := false, hung := true }
      | SendOutcome.done resp err =>
          match err with
          | some e =>
              if containsSubstr e "Unregistered" then
                { registered := reg, released := 1, logsAdded := resp.Logs
                  reclaims := n.Tokens.map (fun t => (t, resolveCleanerApiUrl env))
                  sendRan := true, taskErr := none, submitErrLogged := false, hung := false }
              else
                { registered := reg, released := 1, logsAdded := []
                  reclaims := [], sendRan := true, taskErr := some e
                  submitErrLogged := false, hung := false }
          | none =>
              { registered := reg, released := 1, logsAdded := resp.Logs
                reclaims := [], sendRan := true, taskErr := none
                submitErrLogged := false, hung := false }
    else
      { registered := reg, released := 0, logsAdded := [], reclaims := []
        sendRan := false, taskErr := none, submitErrLogged := true, hung := false }
  else
    if accepts then
      { registered := reg, released := 0, logsAdded := [], reclaims := []
        sendRan := false, taskErr := none, submitErrLogged := false, hung := false }
    else
      { registered := reg, released := 1
        logsAdded := markFailedNotification cfg n "max capacity reached"
        reclaims := [], sendRan := false, taskErr := none
        submitErrLogged := false, hung := false }

/-- Volume contributed by one notification (router/server.go lines
335-339): number of tokens, plus one for the topic when `To` is set. -/
def countAdded (n : PushNotification) : Nat :=
  n.Tokens.length + (if n.To != "" then 1 else 0)

/-- State threaded through the dispatch loop: next oracle index, the
accumulated `count`, the shared `logs` slice, the per-notification
records, the WaitGroup counter, and whether a WaitGroup underflow panic
has occurred (which aborts the loop, as a Go panic unwinds out of
`handleNotification`). -/
structure StepState where
  idx : Nat
  count : Nat
  logs : List LogPushEntry
  records : List TaskRecord
  wgCounter : Nat
  panicked : Bool
deriving DecidableEq, Repr

/-- One iteration of the dispatch loop over a surviving notification.  A
panicked state is absorbing (the Go panic aborted the loop).  The
WaitGroup arithmetic mirrors `sync.WaitGroup`: the releases of this
notification must not exceed the registered units plus the current
counter, otherwise the counter would go negative and Go panics; the log
entries contributed before the panicking `wg.Done` (line 331 precedes
line 332) are still in the slice, but the `count` update (line 335) is
never reached. -/
def dispatchStep (cfg : ConfYaml) (env : String) (accepts : Nat → Bool)
    (send : Nat → SendOutcome) (st : StepState) (n : PushNotification) : StepState :=
  if st.panicked then st
  else
    let r := handleOne cfg env (accepts st.idx) (send st.idx) n
    if r.released ≤ st.wgCounter + r.registered then
      { idx := st.idx + 1
        count := st.count + countAdded n
        logs := st.logs ++ r.logsAdded
        records := st.records ++ [r]
        wgCounter := st.wgCounter + r.registered - r.released
        panicked := false }
    else
      { idx := st.idx + 1
        count := st.count
        logs := st.logs ++ r.logsAdded
        records := st.records ++ [r]
        wgCounter := st.wgCounter + r.registered
        panicked := true }

/-- The platform filter switch of `handleNotification` (router/server.go
lines 268-281): a notification on a disabled iOS/Android/Huawei platform
is skipped (`continue`); any other platform value falls through the
switch and survives. -/
def platformAccepted (cfg : ConfYaml) (n : PushNotification) : Bool :=
  if n.Platform == PlatFormIos then cfg.Ios.Enabled
  else if n.Platform == PlatFormAndroid then cfg.Android.Enabled
  else if n.Platform == PlatFormHuawei then cfg.Huawei.Enabled
  else true

/-- The sync-downgrade mutation of `handleNotification` (router/server.go
lines 262-264): when sync is configured with a non-local queue engine,
`cfg.Core.Sync` is overwritten with `false` on the shared configuration
object; no other field is touched. -/
def effectiveCfg (cfg : ConfYaml) : ConfYaml :=
  if cfg.Core.Sync && !IsLocalQueue cfg.Queue.Engine then
    { cfg with Core := { cfg.Core with Sync := false } }
  else cfg

/-- Result of one run of the embedded `handleNotification`: the final
(possibly mutated) configuration, the accumulated count and logs, the
per-notification records, the final WaitGroup counter, the panic flag and
the filtered notification list. -/
structure DispatchRun where
  cfg : ConfYaml
  count : Nat
  logs : List LogPushEntry
  records : List TaskRecord
  wgCounter : Nat
  panicked : Bool
  filtered : List PushNotification
deriving DecidableEq, Repr

/-- Embedding of `handleNotification` (router/server.go lines 252-349).
The first parameter models the cancellation state of the `context.Context`
argument; the Go function binds that parameter to `_` and never reads it,
and so does this embedding.  The oracles give, per submission index, the
queue's accept/reject decision and the send outcome; `env` is the value of
`CLEANER_API_URL`.  Task completions are serialised in submission
order. -/
def handleNotification (ctxCanceled : Bool) (cfg0 : ConfYaml) (req : RequestPush)
    (accepts : Nat → Bool) (send : Nat → SendOutcome) (env : String) : DispatchRun :=
  let cfg := effectiveCfg cfg0
  let filtered := req.Notifications.filter (fun n => platformAccepted cfg n)
  let final := filtered.foldl (dispatchStep cfg env accepts send)
    { idx := 0, count := 0, logs := [], records := [], wgCounter := 0, panicked := false }
  { cfg := cfg
    count := final.count
    logs := final.logs
    records := final.records
    wgCounter := final.wgCounter
    panicked := final.panicked
    filtered := filtered }

/-- What the caller of `handleNotification` observes: `some (count, logs)`
when the function returns normally, `none` when it panics (WaitGroup
underflow) or when the sync-mode `wg.Wait()` can never return because some
registered barrier unit is never released. -/
def DispatchRun.returns (r : DispatchRun) : Option (Nat × List LogPushEntry) :=
  if r.panicked || (r.cfg.Core.Sync && r.wgCounter != 0) then none
  else some (r.count, r.logs)

/-- The volume formula of the spec: sum over the notifications surviving
the platform filter of (number of tokens) + (1 if the topic is set). -/
def totalCount (cfg : ConfYaml) (req : RequestPush) : Nat :=
  ((req.Notifications.filter (fun n => platformAccepted cfg n)).map countAdded).sum

/-- One atomic memory action of a completing task on the shared `logs`
slice.  The Go statement `logs = append(logs, resp.Logs...)` (line 321)
is not protected by any mutex and is executed by concurrent worker
goroutines; it decomposes into a read of the shared slice followed by a
write of the extended slice. -/
inductive AggAction where
  | read : Nat → AggAction
  | write : Nat → AggAction

/-- Shared-memory state of the concurrent log aggregation: the shared
`logs` slice and, per task, the private snapshot the task has read (if it
has read yet). -/
structure AggState where
  shared : List LogPushEntry
  snaps : Nat → Option (List LogPushEntry)

/-- One interleaving step of the unsynchronised append: `read t` stores
the current shared slice as task `t`'s snapshot; `write t` replaces the
shared slice by the task's snapshot extended with the task's own entries
(the lost-update behaviour of an unsynchronised read-modify-write). -/
def aggStep (tasks : Nat → List LogPushEntry) (st : AggState) (a : AggAction) : AggState :=
  match a with
  | AggAction.read t =>
      { st with snaps := fun u => if u = t then some st.shared else st.snaps u }
  | AggAction.write t =>
      match st.snaps t with
      | some snap => { st with shared := snap ++ tasks t }
      | none => st

/-- The shared `logs` slice after the given schedule of read/write actions
by the completing tasks, starting from an empty slice. -/
def aggRun (tasks : Nat → List LogPushEntry) (sched : List AggAction) : List LogPushEntry :=
  (sched.foldl (aggStep tasks) { shared := [], snaps := fun _ => none }).shared

/-- A serialised completion schedule for tasks `0..k-1`: each task reads
and immediately writes before the next task runs. -/
def serialSched : Nat → List AggAction
  | 0 => []
  | Nat.succ k => serialSched k ++ [AggAction.read k, AggAction.write k]

/-- HTTP status 200, `http.StatusOK` of Go's standard library: the only
response status on which the token reclaimer stops retrying. -/
def StatusOK : Nat := 200

/-- Trace of one `deleteUnregisteredToken` run: the DELETE URL it built,
how many attempts (`client.Do` calls) it made and how many 2-second waits
it performed.  The Go function returns nothing: no error is ever surfaced
to its caller. -/
structure ReclaimTrace where
  url : String
  attempts : Nat
  waits : Nat
deriving DecidableEq, Repr

/-- The retry loop of `deleteUnregisteredToken` (router/server.go lines
361-372), with the per-attempt oracle `respond` (`none` models a network
error from `client.Do`, `some code` a response with that status): on a
network error, log, wait 2 seconds and retry; on status 200 stop; on any
other status wait 2 seconds and retry; at most the given number of
attempts.  Returns (attempts made, waits performed). -/
def reclaimLoop (respond : Nat → Option Nat) : Nat → Nat → Nat × Nat
  | _, 0 => (0, 0)
  | i, Nat.succ k =>
    match respond i with
    | none =>
        let p := reclaimLoop respond (i + 1) k
        (p.1 + 1, p.2 + 1)
    | some code =>
        if code == StatusOK then (1, 0)
        else
          let p := reclaimLoop respond (i + 1) k
          (p.1 + 1, p.2 + 1)

/-- Embedding of `deleteUnregisteredToken` (router/server.go lines
352-373): build a DELETE request for `cleanerServiceURL + "/" + token`
(`newRequestErr` models `http.NewRequest` failing, in which case the
function returns after zero attempts), then run the bounded retry loop
with 3 attempts.  Nothing is returned to the caller in any case. -/
def deleteUnregisteredToken (token cleanerServiceURL : String)
    (newRequestErr : Bool) (respond : Nat → Option Nat) : ReclaimTrace :=
  let url := cleanerServiceURL ++ "/" ++ token
  if newRequestErr then { url := url, attempts := 0, waits := 0 }
  else
    let p := reclaimLoop respond 0 3
    { url := url, attempts := p.1, waits := p.2 }

/-- Whether one attempt's oracle outcome stops the retry loop: a network
error (`none`) never does, a response does exactly when its status is
`http.StatusOK`. -/
def isOKResp (r : Option Nat) : Bool :=
  match r with
  | none => false
  | some code => code == StatusOK

/-- Fixture: configuration with sync mode on and the local queue engine,
all platforms enabled, no token redaction. -/
def cfgSyncLocal : ConfYaml :=
  { Core := { Sync := true, Mode := "release", MaxNotification := 100 }
    Ios := { Enabled := true }
    Android := { Enabled := true }
    Huawei := { Enabled := true }
    Queue := { Engine := "local" }
    Log := { HideToken := false, Format := "string" } }

/-- Fixture: configuration with sync mode off and the local queue engine. -/
def cfgAsyncLocal : ConfYaml :=
  { Core := { Sync := false, Mode := "release", MaxNotification := 100 }
    Ios := { Enabled := true }
    Android := { Enabled := true }
    Huawei := { Enabled := true }
    Queue := { Engine := "local" }
    Log := { HideToken := false, Format := "string" } }

/-- Fixture: configuration requesting sync mode with a non-local ("nsq")
queue engine. -/
def cfgSyncRemote : ConfYaml :=
  { Core := { Sync := true, Mode := "release", MaxNotification := 100 }
    Ios := { Enabled := true }
    Android := { Enabled := true }
    Huawei := { Enabled := true }
    Queue := { Engine := "nsq" }
    Log := { HideToken := false, Format := "string" } }

/-- Fixture: an iOS notification with one token and no topic. -/
def nOne : PushNotification :=
  { ID := "n1", Tokens := ["tokenA"], Platform := 1, Message := "hello", To := "" }

/-- Fixture: an iOS notification with one token and a topic set. -/
def nTopic : PushNotification :=
  { ID := "n2", Tokens := ["tokenB"], Platform := 1, Message := "hello", To := "news" }

/-- Fixture: a success log entry as a delivery backend would produce. -/
def eSuccA : LogPushEntry :=
  { ID := "n1", Status := "ok", Token := "tokenA", Message := "hello", Platform := 1, Error := "" }

/-- Fixture: a second distinct success log entry. -/
def eSuccB : LogPushEntry :=
  { ID := "n2", Status := "ok", Token := "tokenB", Message := "hello", Platform := 1, Error := "" }

/-- Fixture: send oracle that always succeeds with no log entries. -/
def sendOkEmpty : Nat → SendOutcome := fun _ => SendOutcome.done { Logs := [] } none

/-- Fixture: send oracle that never completes. -/
def sendHangs : Nat → SendOutcome := fun _ => SendOutcome.hangs

/-- Fixture: send oracle that returns one log entry and a generic
(non-"Unregistered") delivery error. -/
def sendGenericErr : Nat → SendOutcome :=
  fun _ => SendOutcome.done { Logs := [eSuccA] } (some "network boom")

/-- Fixture: two concurrently completing tasks, each contributing one log
entry to the shared slice. -/
def tasksTwo : Nat → List LogPushEntry :=
  fun t => if t = 0 then [eSuccA] else [eSuccB]

/-- Fixture: the racing schedule in which both tasks read the shared
slice before either writes. -/
def racedSched : List AggAction :=
  [AggAction.read 0, AggAction.read 1, AggAction.write 0, AggAction.write 1]

/-- The record of a notification handed to the queue in async mode and
accepted: no barrier unit, no in-process completion, no log entries. -/
def noopRecord : TaskRecord :=
  { registered := 0, released := 0, logsAdded := [], reclaims := []
    sendRan := false, taskErr := none, submitErrLogged := false, hung := false }

/-- C1: in sync mode with the local engine, a capacity-rejected
`q.QueueTask` submission registers one barrier unit (`wg.Add(1)` at line
288) that is never released: the task closure containing the deferred
`wg.Done` never runs and the error branch (line 325) only logs.  The
WaitGroup counter stays at 1 and `wg.Wait()` hangs, contradicting the
claimed exactly-once release for the capacity-rejection outcome. -/
theorem c1_sync_capacity_rejection_leaks_barrier_unit :
    (handleNotification false cfgSyncLocal { Notifications := [nOne] }
        (fun _ => false) sendOkEmpty "").records.map
        (fun r => (r.registered, r.released)) = [(1, 0)] ∧
    (handleNotification false cfgSyncLocal { Notifications := [nOne] }
        (fun _ => false) sendOkEmpty "").wgCounter = 1 ∧
    (handleNotification false cfgSyncLocal { Notifications := [nOne] }
        (fun _ => false) sendOkEmpty "").returns = none := by
  decide

/-- C3: `handleNotification` binds its context parameter to `_`, so the
cancellation watcher of `pushHandler` has no effect on the dispatch: the
run is identical whether or not cancellation fired, and with a send that
never completes the sync-mode `wg.Wait()` can never return (one barrier
unit stays unreleased; no panic, just a hang). -/
theorem c3_cancellation_ignored_sync_wait_hangs :
    handleNotification true cfgSyncLocal { Notifications := [nOne] }
        (fun _ => true) sendHangs "" =
      handleNotification false cfgSyncLocal { Notifications := [nOne] }
        (fun _ => true) sendHangs "" ∧
    (handleNotification true cfgSyncLocal { Notifications := [nOne] }
        (fun _ => true) sendHangs "").returns = none ∧
    (handleNotification true cfgSyncLocal { Notifications := [nOne] }
        (fun _ => true) sendHangs "").panicked = false ∧
    (handleNotification true cfgSyncLocal { Notifications := [nOne] }
        (fun _ => true) sendHangs "").wgCounter = 1 := by
  refine ⟨rfl, ?_, ?_, ?_⟩ <;> decide

/-- C4 counterexample: on a generic (non-"Unregistered") delivery error
the task closure returns the error (line 317) before the log append (line
321), so the log entry the send produced is dropped: the final logs are
empty although the backend returned one entry.  The barrier unit is still
released and the run returns normally. -/
theorem c4_counterexample_generic_error_drops_send_logs :
    (handleNotification false cfgSyncLocal { Notifications := [nOne] }
        (fun _ => true) sendGenericErr "").logs = [] ∧
    (handleNotification false cfgSyncLocal { Notifications := [nOne] }
        (fun _ => true) sendGenericErr "").records.map TaskRecord.taskErr =
      [some "network boom"] ∧
    (handleNotification false cfgSyncLocal { Notifications := [nOne] }
        (fun _ => true) sendGenericErr "").records.map TaskRecord.released = [1] ∧
    (handleNotification false cfgSyncLocal { Notifications := [nOne] }
        (fun _ => true) sendGenericErr "").returns = some (1, []) := by
  refine ⟨?_, ?_, ?_, ?_⟩ <;> decide

/-- C5: the shared `logs` slice is appended to by concurrent task
completions without any mutex (`logs = append(logs, resp.Logs...)`, line
321).  Under the interleaving in which both tasks read the slice before
either writes, the first task's entry is lost from the final aggregated
sequence, while the serialised schedule keeps both entries. -/
theorem c5_unsynchronized_append_loses_entry :
    aggRun tasksTwo racedSched = [eSuccB] ∧
    ¬ eSuccA ∈ aggRun tasksTwo racedSched ∧
    aggRun tasksTwo (serialSched 2) = [eSuccA, eSuccB] := by
  refine ⟨?_, ?_, ?_⟩ <;> decide

/-- C2 counterexample: a capacity-rejected notification with one token
and a topic set yields exactly one synthesized LogPushEntry —
`markFailedNotification` loops over the tokens only, there is no extra
entry for the topic — and in async mode the subsequent `wg.Done()` (line
332) underflows the WaitGroup, so dispatch panics and the entries are
never returned. -/
theorem c2_counterexample_no_topic_entry_and_async_panic :
    (handleNotification false cfgAsyncLocal { Notifications := [nTopic] }
        (fun _ => false) sendOkEmpty "").logs.length = 1 ∧
    ¬ (handleNotification false cfgAsyncLocal { Notifications := [nTopic] }
        (fun _ => false) sendOkEmpty "").logs.length = nTopic.Tokens.length + 1 ∧
    (handleNotification false cfgAsyncLocal { Notifications := [nTopic] }
        (fun _ => false) sendOkEmpty "").panicked = true ∧
    (handleNotification false cfgAsyncLocal { Notifications := [nTopic] }
        (fun _ => false) sendOkEmpty "").returns = none := by
  refine ⟨?_, ?_, ?_, ?_⟩ <;> decide

/-- C7 counterexample: with sync configured and a non-local engine the
mode is downgraded and the wait is skipped, but a capacity-rejected
submission then calls `wg.Done()` on a WaitGroup whose counter is zero:
dispatch panics instead of returning immediately after submitting all
notifications. -/
theorem c7_counterexample_capacity_rejection_panics_instead_of_returning :
    (handleNotification false cfgSyncRemote { Notifications := [nOne] }
        (fun _ => false) sendOkEmpty "").cfg.Core.Sync = false ∧
    (handleNotification false cfgSyncRemote { Notifications := [nOne] }
        (fun _ => false) sendOkEmpty "").panicked = true ∧
    (handleNotification false cfgSyncRemote { Notifications := [nOne] }
        (fun _ => false) sendOkEmpty "").returns = none := by
  refine ⟨?_, ?_, ?_⟩ <;> decide

/-- A panicked loop state is absorbing for one step (the Go panic already
aborted the loop). -/
theorem dispatchStep_panicked (cfg : ConfYaml) (env : String) (accepts : Nat → Bool)
    (send : Nat → SendOutcome) (st : StepState) (n : PushNotification)
    (h : st.panicked = true) :
    dispatchStep cfg env accepts send st n = st := by
  simp [dispatchStep, h]

/-- A panicked loop state is absorbing for the whole fold. -/
theorem foldl_dispatchStep_panicked (cfg : ConfYaml) (env : String)
    (accepts : Nat → Bool) (send : Nat → SendOutcome) (l : List PushNotification)
    (st : StepState) (h : st.panicked = true) :
    List.foldl (dispatchStep cfg env accepts send) st l = st := by
  induction l with
  | nil => rfl
  | cons a l ih => rw [List.foldl_cons, dispatchStep_panicked _ _ _ _ _ _ h]; exact ih

/-- A non-panicking step adds exactly `countAdded n` to the accumulated
count (line 335 of router/server.go runs whenever the iteration does not
panic). -/
theorem dispatchStep_count (cfg : ConfYaml) (env : String) (accepts : Nat → Bool)
    (send : Nat → SendOutcome) (st : StepState) (n : PushNotification)
    (h : st.panicked = false)
    (h2 : (dispatchStep cfg env accepts send st n).panicked = false) :
    (dispatchStep cfg env accepts send st n).count = st.count + countAdded n := by
  by_cases hc : (handleOne cfg env (accepts st.idx) (send st.idx) n).released ≤
      st.wgCounter + (handleOne cfg env (accepts st.idx) (send st.idx) n).registered
  · simp [dispatchStep, h, hc]
  · exfalso
    have hp : (dispatchStep cfg env accepts send st n).panicked = true := by
      simp [dispatchStep, h, hc]
    rw [hp] at h2
    exact Bool.true_eq_false.mp h2

/-- Over any non-panicking run of the loop, the accumulated count is the
sum of `countAdded` over the processed notifications, whatever the
submission and send outcomes were. -/
theorem foldl_dispatchStep_count (cfg : ConfYaml) (env : String)
    (accepts : Nat → Bool) (send : Nat → SendOutcome) (l : List PushNotification)
    (st : StepState)
    (h : (List.foldl (dispatchStep cfg env accepts send) st l).panicked = false) :
    (List.foldl (dispatchStep cfg env accepts send) st l).count =
      st.count + (l.map countAdded).sum := by
  induction l generalizing st with
  | nil => simp
  | cons a l ih =>
    rw [List.foldl_cons] at h ⊢
    by_cases hst : st.panicked = true
    · rw [dispatchStep_panicked _ _ _ _ _ _ hst,
        foldl_dispatchStep_panicked _ _ _ _ _ _ hst] at h
      rw [hst] at h
      exact absurd h (by simp)
    · have hst' : st.panicked = false := by
        cases hb : st.panicked
        · rfl
        · exact absurd hb hst
      by_cases hp : (dispatchStep cfg env accepts send st a).panicked = true
      · rw [foldl_dispatchStep_panicked _ _ _ _ _ _ hp] at h
        rw [hp] at h
        exact absurd h (by simp)
      · have hp' : (dispatchStep cfg env accepts send st a).panicked = false := by
          cases hb : (dispatchStep cfg env accepts send st a).panicked
          · rfl
          · exact absurd hb hp
        rw [ih _ h, dispatchStep_count _ _ _ _ _ _ hst' hp']
        simp [List.map_cons, List.sum_cons]
        omega

/-- Every branch of `handleOne` releases at most one barrier unit. -/
theorem handleOne_released_le_one (cfg : ConfYaml) (env : String) (accepts : Bool)
    (o : SendOutcome) (n : PushNotification) :
    (handleOne cfg env accepts o n).released ≤ 1 := by
  cases o with
  | hangs =>
    simp only [handleOne]
    split
    · split <;> simp
    · split <;> simp
  | done resp err =>
    cases err with
    | none =>
      simp only [handleOne]
      split
      · split <;> simp
      · split <;> simp
    | some e =>
      simp only [handleOne]
      split
      · split
        · split <;> simp
        · simp
      · split <;> simp

/-- When sync mode is on, every branch of `handleOne` registers exactly
one barrier unit (`wg.Add(1)` runs unconditionally at line 288). -/
theorem handleOne_sync_registered (cfg : ConfYaml) (env : String) (accepts : Bool)
    (o : SendOutcome) (n : PushNotification) (hsync : cfg.Core.Sync = true) :
    (handleOne cfg env accepts o n).registered = 1 := by
  cases o with
  | hangs =>
    simp only [handleOne, hsync]
    split
    · split <;> simp
    · split <;> simp
  | done resp err =>
    cases err with
    | none =>
      simp only [handleOne, hsync]
      split
      · split <;> simp
      · split <;> simp
    | some e =>
      simp only [handleOne, hsync]
      split
      · split
        · split <;> simp
        · simp
      · split <;> simp

/-- In sync mode the dispatch loop never panics: each iteration registers
one unit before releasing at most one, so the WaitGroup counter never
underflows. -/
theorem dispatchStep_sync_no_panic (cfg : ConfYaml) (env : String)
    (accepts : Nat → Bool) (send : Nat → SendOutcome) (st : StepState)
    (n : PushNotification) (hsync : cfg.Core.Sync = true) (h : st.panicked = false) :
    (dispatchStep cfg env accepts send st n).panicked = false := by
  have hr := handleOne_released_le_one cfg env (accepts st.idx) (send st.idx) n
  have hreg := handleOne_sync_registered cfg env (accepts st.idx) (send st.idx) n hsync
  have hc : (handleOne cfg env (accepts st.idx) (send st.idx) n).released ≤
      st.wgCounter + (handleOne cfg env (accepts st.idx) (send st.idx) n).registered := by
    rw [hreg]; omega
  simp [dispatchStep, h, hc]

/-- In async mode an accepted submission has no in-process effect: no
barrier units, no logs, no reclamation (the notification is handed to the
queue and the branch body is skipped because `q.Queue` returned no
error). -/
theorem handleOne_async_accepted (cfg : ConfYaml) (env : String) (o : SendOutcome)
    (n : PushNotification) (hsync : cfg.Core.Sync = false) :
    handleOne cfg env true o n = noopRecord := by
  simp [handleOne, hsync, noopRecord]

/-- In async mode with every submission accepted, the loop finishes
without panic, leaves the WaitGroup counter unchanged and appends one
no-op record per notification. -/
theorem foldl_async_accepted (cfg : ConfYaml) (env : String) (accepts : Nat → Bool)
    (send : Nat → SendOutcome) (l : List PushNotification) (st : StepState)
    (hsync : cfg.Core.Sync = false) (hacc : ∀ i, accepts i = true)
    (h : st.panicked = false) :
    (List.foldl (dispatchStep cfg env accepts send) st l).panicked = false ∧
    (List.foldl (dispatchStep cfg env accepts send) st l).wgCounter = st.wgCounter ∧
    (List.foldl (dispatchStep cfg env accepts send) st l).records =
      st.records ++ l.map (fun _ => noopRecord) := by
  revert h
  induction l generalizing st with
  | nil =>
    intro h
    simp [h]
  | cons a l ih =>
    intro h
    rw [List.foldl_cons]
    have hstep : dispatchStep cfg env accepts send st a =
        { idx := st.idx + 1, count := st.count + countAdded a, logs := st.logs
          records := st.records ++ [noopRecord], wgCounter := st.wgCounter
          panicked := false } := by
      have ha := hacc st.idx
      simp [dispatchStep, h, ha, handleOne_async_accepted cfg env (send st.idx) a hsync,
        noopRecord]
    rw [hstep]
    obtain ⟨p1, p2, p3⟩ := ih
      { idx := st.idx + 1, count := st.count + countAdded a, logs := st.logs
        records := st.records ++ [noopRecord], wgCounter := st.wgCounter
        panicked := false } rfl
    refine ⟨p1, p2, ?_⟩
    rw [p3]
    simp

/-- Unfolding lemma: the count of a dispatch run is the count of the
underlying loop fold. -/
theorem handleNotification_count (ctx : Bool) (cfg0 : ConfYaml) (req : RequestPush)
    (accepts : Nat → Bool) (send : Nat → SendOutcome) (env : String) :
    (handleNotification ctx cfg0 req accepts send env).count =
      (List.foldl (dispatchStep (effectiveCfg cfg0) env accepts send)
        { idx := 0, count := 0, logs := [], records := [], wgCounter := 0, panicked := false }
        (req.Notifications.filter (fun n => platformAccepted (effectiveCfg cfg0) n))).count :=
  rfl

/-- Unfolding lemma: the panic flag of a dispatch run is that of the
underlying loop fold. -/
theorem handleNotification_panicked (ctx : Bool) (cfg0 : ConfYaml) (req : RequestPush)
    (accepts : Nat → Bool) (send : Nat → SendOutcome) (env : String) :
    (handleNotification ctx cfg0 req accepts send env).panicked =
      (List.foldl (dispatchStep (effectiveCfg cfg0) env accepts send)
        { idx := 0, count := 0, logs := [], records := [], wgCounter := 0, panicked := false }
        (req.Notifications.filter (fun n => platformAccepted (effectiveCfg cfg0) n))).panicked :=
  rfl

/-- Unfolding lemma: the WaitGroup counter of a dispatch run is that of
the underlying loop fold. -/
theorem handleNotification_wgCounter (ctx : Bool) (cfg0 : ConfYaml) (req : RequestPush)
    (accepts : Nat → Bool) (send : Nat → SendOutcome) (env : String) :
    (handleNotification ctx cfg0 req accepts send env).wgCounter =
      (List.foldl (dispatchStep (effectiveCfg cfg0) env accepts send)
        { idx := 0, count := 0, logs := [], records := [], wgCounter := 0, panicked := false }
        (req.Notifications.filter (fun n => platformAccepted (effectiveCfg cfg0) n))).wgCounter :=
  rfl

/-- Unfolding lemma: the records of a dispatch run are those of the
underlying loop fold. -/
theorem handleNotification_records (ctx : Bool) (cfg0 : ConfYaml) (req : RequestPush)
    (accepts : Nat → Bool) (send : Nat → SendOutcome) (env : String) :
    (handleNotification ctx cfg0 req accepts send env).records =
      (List.foldl (dispatchStep (effectiveCfg cfg0) env accepts send)
        { idx := 0, count := 0, logs := [], records := [], wgCounter := 0, panicked := false }
        (req.Notifications.filter (fun n => platformAccepted (effectiveCfg cfg0) n))).records :=
  rfl

/-- Unfolding lemma: the configuration a dispatch run ends with is the
effective (possibly downgraded) configuration. -/
theorem handleNotification_cfg (ctx : Bool) (cfg0 : ConfYaml) (req : RequestPush)
    (accepts : Nat → Bool) (send : Nat → SendOutcome) (env : String) :
    (handleNotification ctx cfg0 req accepts send env).cfg = effectiveCfg cfg0 :=
  rfl

/-- A configuration whose sync flag is already off is left untouched by
the downgrade. -/
theorem effectiveCfg_sync_false (cfg : ConfYaml) (h : cfg.Core.Sync = false) :
    effectiveCfg cfg = cfg := by
  simp [effectiveCfg, h]

/-- The downgrade branch: with sync configured and a non-local engine,
only `Core.Sync` is overwritten. -/
theorem effectiveCfg_downgrade (cfg : ConfYaml) (h1 : cfg.Core.Sync = true)
    (h2 : IsLocalQueue cfg.Queue.Engine = false) :
    effectiveCfg cfg = { cfg with Core := { cfg.Core with Sync := false } } := by
  simp [effectiveCfg, h1, h2]

/-- C2 (amended): for a capacity-rejected submission on the async
(`q.Queue`) path, dispatch synthesizes exactly one Failed LogPushEntry
per token with reason "max capacity reached" — no extra entry for the
topic — and the send is not attempted; one `wg.Done` then follows (the
WaitGroup underflow shown by the counterexample).  On the sync
(`q.QueueTask`) path a capacity rejection produces no log entries at all:
the submission error is only logged. -/
theorem c2_amended_capacity_rejection_logs (cfg : ConfYaml) (env : String)
    (n : PushNotification) (out : SendOutcome) :
    ((IsLocalQueue cfg.Queue.Engine && cfg.Core.Sync) = false →
      (handleOne cfg env false out n).logsAdded =
        markFailedNotification cfg n "max capacity reached" ∧
      (handleOne cfg env false out n).sendRan = false ∧
      (handleOne cfg env false out n).released = 1) ∧
    ((IsLocalQueue cfg.Queue.Engine && cfg.Core.Sync) = true →
      (handleOne cfg env false out n).logsAdded = [] ∧
      (handleOne cfg env false out n).sendRan = false ∧
      (handleOne cfg env false out n).submitErrLogged = true) ∧
    (markFailedNotification cfg n "max capacity reached").length = n.Tokens.length ∧
    (∀ e ∈ markFailedNotification cfg n "max capacity reached",
      e.Status = FailedPush ∧ e.Error = "max capacity reached") := by
  refine ⟨?_, ?_, ?_, ?_⟩
  · intro hmode
    refine ⟨?_, ?_, ?_⟩ <;> simp [handleOne, hmode]
  · intro hmode
    refine ⟨?_, ?_, ?_⟩ <;> simp [handleOne, hmode]
  · simp [markFailedNotification]
  · intro e he
    simp only [markFailedNotification, List.mem_map] at he
    obtain ⟨t, _, rfl⟩ := he
    exact ⟨rfl, rfl⟩

/-- Witness for the C2 amended theorem at concrete inputs: the async path
yields exactly the `markFailedNotification` entries and the sync path
yields none. -/
theorem c2_amended_capacity_rejection_logs_witness :
    (handleOne cfgAsyncLocal "" false (SendOutcome.done { Logs := [] } none) nTopic).logsAdded =
      markFailedNotification cfgAsyncLocal nTopic "max capacity reached" ∧
    (handleOne cfgSyncLocal "" false (SendOutcome.done { Logs := [] } none) nTopic).logsAdded =
      [] :=
  ⟨((c2_amended_capacity_rejection_logs cfgAsyncLocal ""
      nTopic (SendOutcome.done { Logs := [] } none)).1 (by decide)).1,
   ((c2_amended_capacity_rejection_logs cfgSyncLocal ""
      nTopic (SendOutcome.done { Logs := [] } none)).2.1 (by decide)).1⟩

/-- C4 (amended): on a generic (non-"Unregistered") delivery error the
task registers and releases its barrier unit exactly once and propagates
the error to the queue library as the task's failure; the logs the send
produced are NOT appended (the closure returns before the append); and
processing of the other notifications in the batch continues unaffected
(in sync mode no loop iteration can panic, so the fold proceeds past the
failed task). -/
theorem c4_amended_generic_error_behaviour (cfg : ConfYaml) (env : String)
    (accepts : Nat → Bool) (send : Nat → SendOutcome) (n : PushNotification)
    (resp : PushResult) (e : String)
    (hmode : (IsLocalQueue cfg.Queue.Engine && cfg.Core.Sync) = true)
    (he : containsSubstr e "Unregistered" = false) :
    (handleOne cfg env true (SendOutcome.done resp (some e)) n).registered = 1 ∧
    (handleOne cfg env true (SendOutcome.done resp (some e)) n).released = 1 ∧
    (handleOne cfg env true (SendOutcome.done resp (some e)) n).logsAdded = [] ∧
    (handleOne cfg env true (SendOutcome.done resp (some e)) n).taskErr = some e ∧
    (∀ st n', st.panicked = false →
      (dispatchStep cfg env accepts send st n').panicked = false) := by
  have hsync : cfg.Core.Sync = true := (Bool.and_eq_true _ _ |>.mp hmode).2
  have hlocal : IsLocalQueue cfg.Queue.Engine = true := (Bool.and_eq_true _ _ |>.mp hmode).1
  refine ⟨?_, ?_, ?_, ?_, ?_⟩
  · simp [handleOne, hmode, hsync, hlocal, he]
  · simp [handleOne, hmode, hsync, hlocal, he]
  · simp [handleOne, hmode, hsync, hlocal, he]
  · simp [handleOne, hmode, hsync, hlocal, he]
  · intro st n' hst
    exact dispatchStep_sync_no_panic cfg env accepts send st n' hsync hst

/-- Witness for the C4 amended theorem at concrete inputs. -/
theorem c4_amended_generic_error_behaviour_witness :
    (handleOne cfgSyncLocal "" true (SendOutcome.done { Logs := [eSuccA] }
        (some "network boom")) nOne).released = 1 ∧
    (handleOne cfgSyncLocal "" true (SendOutcome.done { Logs := [eSuccA] }
        (some "network boom")) nOne).logsAdded = [] ∧
    (handleOne cfgSyncLocal "" true (SendOutcome.done { Logs := [eSuccA] }
        (some "network boom")) nOne).taskErr = some "network boom" := by
  have h := c4_amended_generic_error_behaviour cfgSyncLocal "" (fun _ => true)
    sendOkEmpty nOne { Logs := [eSuccA] } "network boom" (by decide) (by decide)
  exact ⟨h.2.1, h.2.2.1, h.2.2.2.1⟩

/-- C6: whenever the dispatch returns a count, that count is the sum,
over the notifications surviving the platform filter (disabled-platform
notifications excluded entirely), of the number of tokens plus one if the
topic is set — independent of every submission and send outcome (the
oracles are universally quantified). -/
theorem c6_count_is_attempted_volume (ctx : Bool) (cfg : ConfYaml) (req : RequestPush)
    (accepts : Nat → Bool) (send : Nat → SendOutcome) (env : String)
    (c : Nat) (l : List LogPushEntry)
    (h : (handleNotification ctx cfg req accepts send env).returns = some (c, l)) :
    c = totalCount (effectiveCfg cfg) req := by
  unfold DispatchRun.returns at h
  split at h
  · exact absurd h (by simp)
  · have hc : c = (handleNotification ctx cfg req accepts send env).count := by
      have := (Option.some.injEq _ _).mp h
      exact (congrArg Prod.fst this).symm
    rename_i hcond
    have hp : (handleNotification ctx cfg req accepts send env).panicked = false := by
      rcases hb : (handleNotification ctx cfg req accepts send env).panicked with _ | _
      · rfl
      · exact absurd (by simp [hb]) hcond
    rw [hc, handleNotification_count]
    rw [handleNotification_panicked] at hp
    rw [foldl_dispatchStep_count _ _ _ _ _ _ hp]
    simp [totalCount]

/-- Witness for the C6 theorem: a concrete run with two notifications
(one token without topic, one token with topic) returns count 3, which is
the filtered volume sum. -/
theorem c6_count_is_attempted_volume_witness :
    3 = totalCount (effectiveCfg cfgSyncLocal) { Notifications := [nOne, nTopic] } :=
  c6_count_is_attempted_volume false cfgSyncLocal { Notifications := [nOne, nTopic] }
    (fun _ => true) sendOkEmpty "" 3
    ((handleNotification false cfgSyncLocal { Notifications := [nOne, nTopic] }
      (fun _ => true) sendOkEmpty "").logs) (by decide)

/-- C7 (amended): with sync configured and a non-local queue engine the
dispatch downgrades to async and never blocks on the completion barrier —
no barrier unit is ever registered and the final WaitGroup counter is
zero — and, provided every submission is accepted, it returns immediately
after submitting all notifications (a capacity-rejected submission
instead underflows the WaitGroup and panics, as the counterexample
shows). -/
theorem c7_amended_sync_downgrade_no_blocking (ctx : Bool) (cfg : ConfYaml)
    (req : RequestPush) (accepts : Nat → Bool) (send : Nat → SendOutcome) (env : String)
    (h1 : cfg.Core.Sync = true) (h2 : IsLocalQueue cfg.Queue.Engine = false)
    (hacc : ∀ i, accepts i = true) :
    (handleNotification ctx cfg req accepts send env).cfg.Core.Sync = false ∧
    (handleNotification ctx cfg req accepts send env).wgCounter = 0 ∧
    (handleNotification ctx cfg req accepts send env).panicked = false ∧
    (handleNotification ctx cfg req accepts send env).returns =
      some ((handleNotification ctx cfg req accepts send env).count,
        (handleNotification ctx cfg req accepts send env).logs) ∧
    (∀ r ∈ (handleNotification ctx cfg req accepts send env).records,
      r.registered = 0) := by
  have hsync : (effectiveCfg cfg).Core.Sync = false := by
    rw [effectiveCfg_downgrade cfg h1 h2]
  obtain ⟨p1, p2, p3⟩ := foldl_async_accepted (effectiveCfg cfg) env accepts send
    (req.Notifications.filter (fun n => platformAccepted (effectiveCfg cfg) n))
    { idx := 0, count := 0, logs := [], records := [], wgCounter := 0, panicked := false }
    hsync hacc rfl
  have hcfg := handleNotification_cfg ctx cfg req accepts send env
  refine ⟨by rw [hcfg]; exact hsync, ?_, ?_, ?_, ?_⟩
  · rw [handleNotification_wgCounter]; exact p2
  · rw [handleNotification_panicked]; exact p1
  · unfold DispatchRun.returns
    rw [handleNotification_panicked, hcfg, hsync, p1]
    simp
  · intro r hr
    rw [handleNotification_records] at hr
    rw [p3] at hr
    simp only [List.nil_append, List.mem_map] at hr
    obtain ⟨_, _, rfl⟩ := hr
    rfl

/-- Witness for the C7 amended theorem at a concrete input: sync
configured, "nsq" engine, one accepted notification. -/
theorem c7_amended_sync_downgrade_no_blocking_witness :
    (handleNotification false cfgSyncRemote { Notifications := [nOne] }
        (fun _ => true) sendOkEmpty "").cfg.Core.Sync = false ∧
    (handleNotification false cfgSyncRemote { Notifications := [nOne] }
        (fun _ => true) sendOkEmpty "").wgCounter = 0 := by
  have h := c7_amended_sync_downgrade_no_blocking false cfgSyncRemote
    { Notifications := [nOne] } (fun _ => true) sendOkEmpty ""
    (by decide) (by decide) (fun _ => rfl)
  exact ⟨h.1, h.2.1⟩

/-- C8: on an "Unregistered" send error (recognised by inspecting the
error text), the task is a soft outcome: the barrier unit is registered
and released exactly once, the logs the send produced are appended, the
error is not propagated to the queue library, and one fire-and-forget
reclamation call is scheduled per token of the notification, addressed at
the resolved cleaner service URL. -/
theorem c8_unregistered_error_soft_outcome (cfg : ConfYaml) (env : String)
    (n : PushNotification) (resp : PushResult) (e : String)
    (hmode : (IsLocalQueue cfg.Queue.Engine && cfg.Core.Sync) = true)
    (he : containsSubstr e "Unregistered" = true) :
    handleOne cfg env true (SendOutcome.done resp (some e)) n =
      { registered := 1, released := 1, logsAdded := resp.Logs
        reclaims := n.Tokens.map (fun t => (t, resolveCleanerApiUrl env))
        sendRan := true, taskErr := none, submitErrLogged := false, hung := false } := by
  have hsync : cfg.Core.Sync = true := (Bool.and_eq_true _ _ |>.mp hmode).2
  have hlocal : IsLocalQueue cfg.Queue.Engine = true := (Bool.and_eq_true _ _ |>.mp hmode).1
  simp [handleOne, hmode, hsync, hlocal, he]

/-- Witness for the C8 theorem at a concrete input: an error reading
"Unregistered device token" on a one-token notification with the cleaner
URL environment variable unset. -/
theorem c8_unregistered_error_soft_outcome_witness :
    handleOne cfgSyncLocal "" true
        (SendOutcome.done { Logs := [eSuccA] } (some "Unregistered device token")) nOne =
      { registered := 1, released := 1, logsAdded := [eSuccA]
        reclaims := [("tokenA", "https://cleaner.tolki.app")]
        sendRan := true, taskErr := none, submitErrLogged := false, hung := false } :=
  c8_unregistered_error_soft_outcome cfgSyncLocal "" nOne { Logs := [eSuccA] }
    "Unregistered device token" (by decide) (by decide)

/-- C10: the sync-downgrade is implemented as a persistent mutation of
the shared configuration: after a dispatch called with sync configured
and a non-local engine, the configuration object's `Core.Sync` field is
false, every other field (`Core.Mode`, `Core.MaxNotification`, the
platform sections, `Queue`, `Log`) is unchanged, and any subsequent
dispatch sharing that configuration object observes (and keeps) the
downgraded flag. -/
theorem c10_downgrade_mutates_shared_config (ctx : Bool) (cfg : ConfYaml)
    (req : RequestPush) (accepts : Nat → Bool) (send : Nat → SendOutcome) (env : String)
    (h1 : cfg.Core.Sync = true) (h2 : IsLocalQueue cfg.Queue.Engine = false) :
    (handleNotification ctx cfg req accepts send env).cfg.Core.Sync = false ∧
    (handleNotification ctx cfg req accepts send env).cfg.Core.Mode = cfg.Core.Mode ∧
    (handleNotification ctx cfg req accepts send env).cfg.Core.MaxNotification =
      cfg.Core.MaxNotification ∧
    (handleNotification ctx cfg req accepts send env).cfg.Ios = cfg.Ios ∧
    (handleNotification ctx cfg req accepts send env).cfg.Android = cfg.Android ∧
    (handleNotification ctx cfg req accepts send env).cfg.Huawei = cfg.Huawei ∧
    (handleNotification ctx cfg req accepts send env).cfg.Queue = cfg.Queue ∧
    (handleNotification ctx cfg req accepts send env).cfg.Log = cfg.Log ∧
    (∀ (ctx2 : Bool) (req2 : RequestPush) (accepts2 : Nat → Bool)
        (send2 : Nat → SendOutcome) (env2 : String),
      (handleNotification ctx2 (handleNotification ctx cfg req accepts send env).cfg
        req2 accepts2 send2 env2).cfg.Core.Sync = false) := by
  have hd := effectiveCfg_downgrade cfg h1 h2
  have hcfg := handleNotification_cfg ctx cfg req accepts send env
  rw [hcfg, hd]
  refine ⟨rfl, rfl, rfl, rfl, rfl, rfl, rfl, rfl, ?_⟩
  intro ctx2 req2 accepts2 send2 env2
  rw [handleNotification_cfg, effectiveCfg_sync_false _ rfl]

/-- Witness for the C10 theorem at a concrete input. -/
theorem c10_downgrade_mutates_shared_config_witness :
    (handleNotification false cfgSyncRemote { Notifications := [nOne] }
        (fun _ => true) sendOkEmpty "").cfg.Core.Sync = false ∧
    (handleNotification false cfgSyncRemote { Notifications := [nOne] }
        (fun _ => true) sendOkEmpty "").cfg.Queue = cfgSyncRemote.Queue := by
  have h := c10_downgrade_mutates_shared_config false cfgSyncRemote
    { Notifications := [nOne] } (fun _ => true) sendOkEmpty "" (by decide) (by decide)
  exact ⟨h.1, h.2.2.2.2.2.2.1⟩

/-- One unrolling of the retry loop: a stopping response ends the loop
after this single attempt with no wait; otherwise one attempt and one
2-second wait are consumed and the loop continues with the remaining
budget. -/
theorem reclaimLoop_succ (respond : Nat → Option Nat) (i k : Nat) :
    reclaimLoop respond i (k + 1) =
      if isOKResp (respond i) then (1, 0)
      else ((reclaimLoop respond (i + 1) k).1 + 1, (reclaimLoop respond (i + 1) k).2 + 1) := by
  cases hr : respond i with
  | none => simp [reclaimLoop, hr, isOKResp]
  | some code =>
    by_cases hc : (code == StatusOK) = true
    · simp [reclaimLoop, hr, isOKResp, hc]
    · have hc' : (code == StatusOK) = false := by simpa using hc
      simp [reclaimLoop, hr, isOKResp, hc']

/-- Closed form of the 3-attempt retry loop in terms of which attempts
would stop it. -/
theorem reclaimLoop_three (respond : Nat → Option Nat) :
    reclaimLoop respond 0 3 =
      if isOKResp (respond 0) then (1, 0)
      else if isOKResp (respond 1) then (2, 1)
      else if isOKResp (respond 2) then (3, 2)
      else (3, 3) := by
  have h0 : reclaimLoop respond 0 3 =
      if isOKResp (respond 0) then (1, 0)
      else ((reclaimLoop respond 1 2).1 + 1, (reclaimLoop respond 1 2).2 + 1) :=
    reclaimLoop_succ respond 0 2
  have h1 : reclaimLoop respond 1 2 =
      if isOKResp (respond 1) then (1, 0)
      else ((reclaimLoop respond 2 1).1 + 1, (reclaimLoop respond 2 1).2 + 1) :=
    reclaimLoop_succ respond 1 1
  have h2 : reclaimLoop respond 2 1 =
      if isOKResp (respond 2) then (1, 0)
      else ((reclaimLoop respond 3 0).1 + 1, (reclaimLoop respond 3 0).2 + 1) :=
    reclaimLoop_succ respond 2 0
  have h3 : reclaimLoop respond 3 0 = (0, 0) := rfl
  rw [h0, h1, h2, h3]
  by_cases k0 : isOKResp (respond 0) = true
  · simp [k0]
  · by_cases k1 : isOKResp (respond 1) = true <;>
      by_cases k2 : isOKResp (respond 2) = true <;>
        simp [k0, k1, k2]

/-- C9: the token reclaimer targets `baseURL + "/" + token` where the
base URL is the environment value with the fixed default
`https://cleaner.tolki.app` when unset; it makes at most 3 attempts with
one 2-second wait between consecutive attempts, stops early on the first
attempt whose response status is 200, and when all attempts fail it stops
after exactly 3 attempts, surfacing nothing to the caller (the trace is
all it produces). -/
theorem c9_token_reclaimer_retry_policy (token base : String)
    (respond : Nat → Option Nat) :
    (deleteUnregisteredToken token base false respond).url = base ++ "/" ++ token ∧
    (deleteUnregisteredToken token base false respond).attempts ≤ 3 ∧
    (∀ k, k < 3 → (∀ j, j < k → isOKResp (respond j) = false) →
      isOKResp (respond k) = true →
      (deleteUnregisteredToken token base false respond).attempts = k + 1 ∧
      (deleteUnregisteredToken token base false respond).waits = k) ∧
    ((∀ j, j < 3 → isOKResp (respond j) = false) →
      (deleteUnregisteredToken token base false respond).attempts = 3 ∧
      (deleteUnregisteredToken token base false respond).waits = 3) ∧
    resolveCleanerApiUrl "" = "https://cleaner.tolki.app" ∧
    (∀ env, ¬ env = "" → resolveCleanerApiUrl env = env) := by
  have hatt : (deleteUnregisteredToken token base false respond).attempts =
      (reclaimLoop respond 0 3).1 := rfl
  have hwaits : (deleteUnregisteredToken token base false respond).waits =
      (reclaimLoop respond 0 3).2 := rfl
  refine ⟨rfl, ?_, ?_, ?_, rfl, ?_⟩
  · rw [hatt, reclaimLoop_three]
    split_ifs <;> simp
  · intro k hk hfail hok
    interval_cases k
    · refine ⟨?_, ?_⟩
      · rw [hatt, reclaimLoop_three]; simp [hok]
      · rw [hwaits, reclaimLoop_three]; simp [hok]
    · have f0 : isOKResp (respond 0) = false := hfail 0 (by omega)
      refine ⟨?_, ?_⟩
      · rw [hatt, reclaimLoop_three]; simp [f0, hok]
      · rw [hwaits, reclaimLoop_three]; simp [f0, hok]
    · have f0 : isOKResp (respond 0) = false := hfail 0 (by omega)
      have f1 : isOKResp (respond 1) = false := hfail 1 (by omega)
      refine ⟨?_, ?_⟩
      · rw [hatt, reclaimLoop_three]; simp [f0, f1, hok]
      · rw [hwaits, reclaimLoop_three]; simp [f0, f1, hok]
  · intro hfail
    have f0 : isOKResp (respond 0) = false := hfail 0 (by omega)
    have f1 : isOKResp (respond 1) = false := hfail 1 (by omega)
    have f2 : isOKResp (respond 2) = false := hfail 2 (by omega)
    refine ⟨?_, ?_⟩
    · rw [hatt, reclaimLoop_three]; simp [f0, f1, f2]
    · rw [hwaits, reclaimLoop_three]; simp [f0, f1, f2]
  · intro env h
    simp [resolveCleanerApiUrl, h]

/-- Witness for the C9 theorem at concrete inputs: a target that always
answers 500 is tried exactly 3 times with the correct URL, and a target
that fails with a network error once and then answers 200 is tried
exactly twice with one wait. -/
theorem c9_token_reclaimer_retry_policy_witness :
    (deleteUnregisteredToken "tok1" "https://cleaner.example" false
        (fun _ => some 500)).attempts = 3 ∧
    (deleteUnregisteredToken "tok1" "https://cleaner.example" false
        (fun _ => some 500)).url = "https://cleaner.example/tok1" ∧
    (deleteUnregisteredToken "tok2" "https://cleaner.example" false
        (fun i => if i = 0 then none else some 200)).attempts = 2 ∧
    (deleteUnregisteredToken "tok2" "https://cleaner.example" false
        (fun i => if i = 0 then none else some 200)).waits = 1 := by
  have hA := c9_token_reclaimer_retry_policy "tok1" "https://cleaner.example"
    (fun _ => some 500)
  have hB := c9_token_reclaimer_retry_policy "tok2" "https://cleaner.example"
    (fun i => if i = 0 then none else some 200)
  have hAex := hA.2.2.2.1 (fun j _ => rfl)
  have hBearly := hB.2.2.1 1 (by omega) (fun j hj => by interval_cases j; rfl) (by rfl)
  exact ⟨hAex.1, hA.1, hBearly.1, hBearly.2⟩

end Gorush
